import Mathlib

/-!
Verification development for the form-workflow core of `adk-a2a`
(`src/agents/adk_nextjs/agent.py`): request-id minting (`create_request_form`),
form-schema building (`return_form`) and approval (`reimburse`).

Python values flowing through these functions are modelled by the inductive
type `PyObj`; the module-level registry `request_ids` (a Python `set`) is
modelled by a duplicate-free `List String` passed and returned explicitly; the
call to `random.randint` is modelled by an explicit draw argument; raised
exceptions are modelled by `Except`.
-/

namespace AdkA2A

/-- Model of the Python values handled by the agent module: `None`, booleans,
integers, strings, lists and string-keyed dicts (entries in insertion order). -/
inductive PyObj where
  | none : PyObj
  | bool : Bool → PyObj
  | int : Int → PyObj
  | str : String → PyObj
  | list : List PyObj → PyObj
  | dict : List (String × PyObj) → PyObj

/-- Python truthiness of a `str | None` argument: `None` and `""` are falsy. -/
def strTruthy : Option String → Bool
  | Option.none => false
  | Option.some s => s != ""

/-- Python `set.add` on the registry, modelled on a duplicate-free list. -/
def addId (rid : String) (s : List String) : List String :=
  if rid ∈ s then s else rid :: s

/-- The request identifier built from one draw of `random.randint`:
`'request_id_' + str(r)`. -/
def mintId (r : Nat) : String :=
  "request_id_" ++ Nat.repr r

/-- Shallow embedding of `create_request_form` (agent.py lines 19-43).
The result of `random.randint(1000000, 9999999)` is the explicit draw `r`;
the module-level set `request_ids` is threaded explicitly.  Each of the three
fields keeps a truthy caller value and otherwise gets its placeholder
(`'<transaction date>' if not date else date`, etc.). -/
def create_request_form (r : Nat) (date amount purpose : Option String)
    (request_ids : List String) : PyObj × List String :=
  let request_id := mintId r
  let request_ids := addId request_id request_ids
  (PyObj.dict [
    ("request_id", PyObj.str request_id),
    ("date", PyObj.str (if strTruthy date then date.getD "" else "<transaction date>")),
    ("amount", PyObj.str (if strTruthy amount then amount.getD "" else "<transaction dollar amount>")),
    ("purpose", PyObj.str (if strTruthy purpose then purpose.getD ""
      else "<business justification/purpose of the transaction>"))
  ], request_ids)

/-- Shallow embedding of `reimburse` (agent.py lines 102-109).  The registry is
only read (`request_id not in request_ids`), never written, so it is returned
unchanged. -/
def reimburse (request_id : String) (request_ids : List String) :
    PyObj × List String :=
  if request_id ∉ request_ids then
    (PyObj.dict [("request_id", PyObj.str request_id),
                 ("status", PyObj.str "Error: Invalid request_id.")], request_ids)
  else
    (PyObj.dict [("request_id", PyObj.str request_id),
                 ("status", PyObj.str "approved")], request_ids)

/-- Lookup of a key in dict entries (Python `d[k]` / `d.get(k)`). -/
def lookupEntry : List (String × PyObj) → String → Option PyObj
  | [], _ => Option.none
  | (k', v) :: es, k => if k' = k then Option.some v else lookupEntry es k

/-- Field access on a Python value: defined on dicts only. -/
def pyGet (o : PyObj) (k : String) : Option PyObj :=
  match o with
  | PyObj.dict es => lookupEntry es k
  | _ => Option.none

/-- The string payload of an optional Python value, `""` when absent or not a
string. -/
def asStr (o : Option PyObj) : String :=
  match o with
  | Option.some (PyObj.str s) => s
  | _ => ""

/-- N sequential calls to `create_request_form` (all fields defaulted), one per
random draw: returns the list of returned request ids and the final registry. -/
def mintRun : List Nat → List String → List String × List String
  | [], st => ([], st)
  | r :: rs, st =>
    let (form, st') := create_request_form r Option.none Option.none Option.none st
    let rid := asStr (pyGet form "request_id")
    let (ids, stFinal) := mintRun rs st'
    (rid :: ids, stFinal)

/-- Quoting of one string for JSON output, as `json.dumps` renders it (the
escapes actually reachable from this module). -/
def jsonQuote (s : String) : String :=
  "\"" ++ String.join (s.toList.map (fun c =>
    if c = '"' then "\\\""
    else if c = '\\' then "\\\\"
    else if c = '\n' then "\\n"
    else if c = '\t' then "\\t"
    else if c = '\r' then "\\r"
    else String.singleton c)) ++ "\""

mutual

/-- Model of Python `json.dumps` with its default separators. -/
def jsonDumps : PyObj → String
  | PyObj.none => "null"
  | PyObj.bool b => if b then "true" else "false"
  | PyObj.int n => toString n
  | PyObj.str s => jsonQuote s
  | PyObj.list xs => "[" ++ jsonDumpsList xs ++ "]"
  | PyObj.dict es => "\x7b" ++ jsonDumpsEntries es ++ "\x7d"

/-- Comma-separated serialization of a list's items. -/
def jsonDumpsList : List PyObj → String
  | [] => ""
  | [x] => jsonDumps x
  | x :: xs => jsonDumps x ++ ", " ++ jsonDumpsList xs

/-- Comma-separated serialization of a dict's entries. -/
def jsonDumpsEntries : List (String × PyObj) → String
  | [] => ""
  | [(k, v)] => jsonQuote k ++ ": " ++ jsonDumps v
  | (k, v) :: es => jsonQuote k ++ ": " ++ jsonDumps v ++ ", " ++ jsonDumpsEntries es

end

/-- Whitespace skipping for the JSON reader. -/
def skipWs : List Char → List Char
  | [] => []
  | c :: cs => if c = ' ' ∨ c = '\t' ∨ c = '\n' ∨ c = '\r' then skipWs cs else c :: cs

/-- Body of a JSON string after the opening quote; returns the decoded
characters and the input after the closing quote, `Option.none` on an
unterminated or unsupported escape. -/
def parseStringBody (acc : List Char) : List Char → Option (String × List Char)
  | [] => Option.none
  | c :: cs =>
    if c = '"' then Option.some (acc.reverse.asString, cs)
    else if c = '\\' then
      match cs with
      | [] => Option.none
      | e :: cs' =>
        if e = '"' then parseStringBody ('"' :: acc) cs'
        else if e = '\\' then parseStringBody ('\\' :: acc) cs'
        else if e = '/' then parseStringBody ('/' :: acc) cs'
        else if e = 'n' then parseStringBody ('\n' :: acc) cs'
        else if e = 't' then parseStringBody ('\t' :: acc) cs'
        else if e = 'r' then parseStringBody ('\r' :: acc) cs'
        else Option.none
    else parseStringBody (c :: acc) cs

/-- Leading decimal digits of the input, with the remainder. -/
def takeDigits : List Char → List Char × List Char
  | [] => ([], [])
  | c :: cs =>
    if c.isDigit then
      let (ds, rest) := takeDigits cs
      (c :: ds, rest)
    else ([], c :: cs)

/-- Numeric value of a digit list, most significant first. -/
def digitsToNat : List Char → Nat
  | [] => 0
  | c :: cs => digitsToNat cs + (c.toNat - 48) * 10 ^ cs.length

mutual

/-- Model of Python `json.loads` on the JSON fragment this module can receive:
strings, integers, booleans, `null`, arrays and objects.  The fuel argument
bounds nesting depth; `jsonLoads` supplies enough for its input.  Failure
models a raised `json.JSONDecodeError`. -/
def parseValue : Nat → List Char → Option (PyObj × List Char)
  | 0, _ => Option.none
  | fuel + 1, cs =>
    match skipWs cs with
    | [] => Option.none
    | c :: rest =>
      if c = '"' then
        (parseStringBody [] rest).map (fun p => (PyObj.str p.1, p.2))
      else if c.toNat = 123 then
        parseObjectRest fuel rest
      else if c = '[' then
        parseArrayRest fuel rest
      else if c.isDigit then
        let (ds, rest') := takeDigits (c :: rest)
        Option.some (PyObj.int (Int.ofNat (digitsToNat ds)), rest')
      else if c = '-' then
        match takeDigits rest with
        | ([], _) => Option.none
        | (ds, rest') => Option.some (PyObj.int (-(Int.ofNat (digitsToNat ds))), rest')
      else if c = 't' then
        match rest with
        | 'r' :: 'u' :: 'e' :: rest' => Option.some (PyObj.bool true, rest')
        | _ => Option.none
      else if c = 'f' then
        match rest with
        | 'a' :: 'l' :: 's' :: 'e' :: rest' => Option.some (PyObj.bool false, rest')
        | _ => Option.none
      else if c = 'n' then
        match rest with
        | 'u' :: 'l' :: 'l' :: rest' => Option.some (PyObj.none, rest')
        | _ => Option.none
      else Option.none

/-- Object members after the opening brace. -/
def parseObjectRest : Nat → List Char → Option (PyObj × List Char)
  | 0, _ => Option.none
  | fuel + 1, cs =>
    match skipWs cs with
    | [] => Option.none
    | c :: rest =>
      if c.toNat = 125 then Option.some (PyObj.dict [], rest)
      else parseMembers fuel [] (c :: rest)

/-- A nonempty comma-separated member list, then the closing brace. -/
def parseMembers (fuel : Nat) (acc : List (String × PyObj)) (cs : List Char) :
    Option (PyObj × List Char) :=
  match fuel with
  | 0 => Option.none
  | fuel + 1 =>
    match skipWs cs with
    | '"' :: rest =>
      match parseStringBody [] rest with
      | Option.none => Option.none
      | Option.some (k, rest') =>
        match skipWs rest' with
        | ':' :: rest'' =>
          match parseValue fuel rest'' with
          | Option.none => Option.none
          | Option.some (v, rest''') =>
            match skipWs rest''' with
            | ',' :: more => parseMembers fuel ((k, v) :: acc) more
            | d :: more =>
              if d.toNat = 125 then Option.some (PyObj.dict ((k, v) :: acc).reverse, more)
              else Option.none
            | [] => Option.none
        | _ => Option.none
    | _ => Option.none

/-- Array items after the opening bracket. -/
def parseArrayRest : Nat → List Char → Option (PyObj × List Char)
  | 0, _ => Option.none
  | fuel + 1, cs =>
    match skipWs cs with
    | [] => Option.none
    | c :: rest =>
      if c = ']' then Option.some (PyObj.list [], rest)
      else parseItems fuel [] (c :: rest)

/-- A nonempty comma-separated item list, then the closing bracket. -/
def parseItems (fuel : Nat) (acc : List PyObj) (cs : List Char) :
    Option (PyObj × List Char) :=
  match fuel with
  | 0 => Option.none
  | fuel + 1 =>
    match parseValue fuel cs with
    | Option.none => Option.none
    | Option.some (v, rest) =>
      match skipWs rest with
      | ',' :: more => parseItems fuel (v :: acc) more
      | ']' :: more => Option.some (PyObj.list (v :: acc).reverse, more)
      | _ => Option.none

end

/-- Model of Python `json.loads`: parse one value and require only trailing
whitespace after it; `Except.error` models the raised `JSONDecodeError`. -/
def jsonLoads (s : String) : Except Unit PyObj :=
  match parseValue (s.length + 1) s.toList with
  | Option.some (v, rest) =>
    if skipWs rest = [] then Except.ok v else Except.error ()
  | Option.none => Except.error ()

/-- Model of `google.adk` `EventActions`, the mutable action-flag record on a
tool context.  `transfer_to_agent` stands in for the action fields that
`return_form` never touches. -/
structure EventActions where
  skip_summarization : Bool
  escalate : Bool
  transfer_to_agent : Option String

/-- Model of the caller-supplied `ToolContext`.  `state` stands in for the
per-invocation fields other than `actions`, which `return_form` never
touches. -/
structure ToolContext where
  actions : EventActions
  state : List (String × PyObj)

/-- The exceptions `return_form` can raise: `json.JSONDecodeError` from
`json.loads`, and `AttributeError` from `.keys()` on a non-dict. -/
inductive PyError where
  | jsonDecodeError : PyError
  | attributeError : PyError

/-- The constant `'properties'` sub-dict built inside `return_form`
(agent.py lines 69-92). -/
def form_properties : PyObj :=
  PyObj.dict [
    ("date", PyObj.dict [
      ("type", PyObj.str "string"),
      ("format", PyObj.str "date"),
      ("description", PyObj.str "Date of expense"),
      ("title", PyObj.str "Date")]),
    ("amount", PyObj.dict [
      ("type", PyObj.str "string"),
      ("format", PyObj.str "number"),
      ("description", PyObj.str "Amount of expense"),
      ("title", PyObj.str "Amount")]),
    ("purpose", PyObj.dict [
      ("type", PyObj.str "string"),
      ("description", PyObj.str "Purpose of expense"),
      ("title", PyObj.str "Purpose")]),
    ("request_id", PyObj.dict [
      ("type", PyObj.str "string"),
      ("description", PyObj.str "Request id"),
      ("title", PyObj.str "Request ID")])]

/-- The `form_dict` literal of `return_form` (agent.py lines 66-98), built from
the entries of the (already deserialized) `form_request` dict and the optional
`instructions` argument; `'required'` is `list(form_request.keys())`. -/
def form_dict (entries : List (String × PyObj)) (instructions : Option String) : PyObj :=
  PyObj.dict [
    ("type", PyObj.str "form"),
    ("form", PyObj.dict [
      ("type", PyObj.str "object"),
      ("properties", form_properties),
      ("required", PyObj.list ((entries.map Prod.fst).map PyObj.str))]),
    ("form_data", PyObj.dict entries),
    ("instructions", (instructions.map PyObj.str).getD PyObj.none)]

/-- The two flag writes of `return_form` (agent.py lines 64-65):
`tool_context.actions.skip_summarization = True` and
`tool_context.actions.escalate = True`. -/
def setEscalation (ctx : ToolContext) : ToolContext :=
  { ctx with actions := { ctx.actions with skip_summarization := true, escalate := true } }

/-- Body of `return_form` after the string branch: the context flags are set,
then `form_request.keys()` is read (an `AttributeError` on a non-dict, raised
after the flag writes took effect) and the serialized `form_dict` is returned. -/
def return_form_body (form_request : PyObj) (tool_context : ToolContext)
    (instructions : Option String) : Except PyError PyObj × ToolContext :=
  let tool_context := setEscalation tool_context
  match form_request with
  | PyObj.dict entries =>
    (Except.ok (PyObj.str (jsonDumps (form_dict entries instructions))), tool_context)
  | _ => (Except.error PyError.attributeError, tool_context)

/-- Shallow embedding of `return_form` (agent.py lines 46-99).  A string
argument is deserialized first (`if isinstance(form_request, str):
form_request = json.loads(form_request)`); a parse failure raises before any
other effect, so the context comes back unchanged.  The first component is the
returned value or the raised exception; the second is the context as the
caller sees it afterwards. -/
def return_form (form_request : PyObj) (tool_context : ToolContext)
    (instructions : Option String) : Except PyError PyObj × ToolContext :=
  match form_request with
  | PyObj.str s =>
    match jsonLoads s with
    | Except.error _ => (Except.error PyError.jsonDecodeError, tool_context)
    | Except.ok parsed => return_form_body parsed tool_context instructions
  | other => return_form_body other tool_context instructions

/-- The `'required'` list of a serialized form descriptor, read back through
the dict structure. -/
def getRequired (descriptor : PyObj) : Option (List String) :=
  match pyGet descriptor "form" with
  | Option.some f =>
    match pyGet f "required" with
    | Option.some (PyObj.list xs) =>
      Option.some (xs.map (fun x => match x with | PyObj.str s => s | _ => ""))
    | _ => Option.none
  | _ => Option.none

/-- The `'properties'` sub-dict of a form descriptor. -/
def getProperties (descriptor : PyObj) : Option PyObj :=
  match pyGet descriptor "form" with
  | Option.some f => pyGet f "properties"
  | _ => Option.none

/-! ### Decimal representation: `Nat.repr` is injective -/

lemma digitVal_digitChar : ∀ d < 10, (Nat.digitChar d).toNat - 48 = d := by decide

lemma toDigitsCore_eq_digits (b : Nat) (hb : 1 < b) :
    ∀ (f n : Nat) (l : List Char), 0 < n → n < f →
      Nat.toDigitsCore b f n l = ((Nat.digits b n).map Nat.digitChar).reverse ++ l := by
  intro f
  induction f with
  | zero => intro n l h1 h2; omega
  | succ f ih =>
    intro n l hn hf
    simp only [Nat.toDigitsCore]
    by_cases hq : n / b = 0
    · simp only [hq, if_true]
      rw [Nat.digits_def' hb hn, hq]
      simp
    · simp only [hq, if_false]
      have hq' : 0 < n / b := Nat.pos_of_ne_zero hq
      have hlt : n / b < f := by
        have := Nat.div_lt_self hn hb
        omega
      rw [ih (n / b) (Nat.digitChar (n % b) :: l) hq' hlt]
      rw [Nat.digits_def' hb hn]
      simp

lemma repr_eq_digits (n : Nat) (hn : 0 < n) :
    Nat.repr n = (((Nat.digits 10 n).map Nat.digitChar).reverse).asString := by
  show (Nat.toDigits 10 n).asString = _
  unfold Nat.toDigits
  rw [toDigitsCore_eq_digits 10 (by norm_num) (n + 1) n [] hn (by omega)]
  simp

lemma map_digitVal_digitChar (l : List Nat) (hl : ∀ d ∈ l, d < 10) :
    (l.map Nat.digitChar).map (fun c => Char.toNat c - 48) = l := by
  induction l with
  | nil => simp
  | cons d ds ih =>
    simp only [List.map_cons, List.cons.injEq]
    exact ⟨digitVal_digitChar d (hl d (by simp)), ih (fun x hx => hl x (by simp [hx]))⟩

lemma eq_zero_of_repr_eq_repr_zero {m : Nat} (h : Nat.repr m = "0") : m = 0 := by
  by_contra hm
  have hm' : 0 < m := Nat.pos_of_ne_zero hm
  rw [repr_eq_digits m hm'] at h
  rw [show ("0" : String) = List.asString ['0'] from rfl, List.asString_inj] at h
  have h2 : (Nat.digits 10 m).map Nat.digitChar = ['0'] := by
    have := congrArg List.reverse h
    simpa using this
  have h3 := congrArg (List.map (fun c => Char.toNat c - 48)) h2
  rw [map_digitVal_digitChar _ (fun d hd => Nat.digits_lt_base (by norm_num) hd)] at h3
  have h4 : Nat.digits 10 m = [0] := by simpa using h3
  have h5 := congrArg (Nat.ofDigits 10) h4
  rw [Nat.ofDigits_digits] at h5
  simp [Nat.ofDigits] at h5
  exact hm h5

lemma natRepr_injective : Function.Injective Nat.repr := by
  intro n m h
  rcases Nat.eq_zero_or_pos n with rfl | hn
  · exact (eq_zero_of_repr_eq_repr_zero h.symm).symm
  rcases Nat.eq_zero_or_pos m with rfl | hm
  · exact eq_zero_of_repr_eq_repr_zero h
  rw [repr_eq_digits n hn, repr_eq_digits m hm, List.asString_inj] at h
  have h2 := List.reverse_injective h
  have h3 := congrArg (List.map (fun c => Char.toNat c - 48)) h2
  rw [map_digitVal_digitChar _ (fun d hd => Nat.digits_lt_base (by norm_num) hd),
      map_digitVal_digitChar _ (fun d hd => Nat.digits_lt_base (by norm_num) hd)] at h3
  have h4 := congrArg (Nat.ofDigits 10) h3
  rwa [Nat.ofDigits_digits, Nat.ofDigits_digits] at h4

lemma mintId_injective : Function.Injective mintId := by
  intro a b h
  have h2 := congrArg String.data h
  simp only [mintId, String.data_append] at h2
  have h3 := List.append_cancel_left h2
  exact natRepr_injective (String.ext h3)

/-! ### Registry and mint-run lemmas -/

lemma mem_addId_self (rid : String) (s : List String) : rid ∈ addId rid s := by
  unfold addId
  split
  · assumption
  · exact List.mem_cons_self rid s

lemma mem_addId_of_mem (rid x : String) (s : List String) (hx : x ∈ s) :
    x ∈ addId rid s := by
  unfold addId
  split
  · exact hx
  · exact List.mem_cons_of_mem rid hx

lemma create_request_form_id (r : Nat) (d a p : Option String) (st : List String) :
    pyGet (create_request_form r d a p st).1 "request_id"
      = Option.some (PyObj.str (mintId r)) := by
  simp [create_request_form, pyGet, lookupEntry]

lemma create_request_form_snd (r : Nat) (d a p : Option String) (st : List String) :
    (create_request_form r d a p st).2 = addId (mintId r) st := rfl

lemma mintRun_fst (draws : List Nat) (st : List String) :
    (mintRun draws st).1 = draws.map mintId := by
  induction draws generalizing st with
  | nil => rfl
  | cons r rs ih =>
    simp [mintRun, create_request_form, pyGet, lookupEntry, asStr, ih]

lemma mintRun_registry_mono (draws : List Nat) (st : List String) (x : String)
    (hx : x ∈ st) : x ∈ (mintRun draws st).2 := by
  induction draws generalizing st with
  | nil => exact hx
  | cons r rs ih =>
    simp only [mintRun, create_request_form_snd]
    exact ih (addId (mintId r) st) (mem_addId_of_mem _ _ _ hx)

lemma mintRun_ids_recorded (draws : List Nat) (st : List String) :
    ∀ rid ∈ (mintRun draws st).1, rid ∈ (mintRun draws st).2 := by
  induction draws generalizing st with
  | nil => intro rid h; cases h
  | cons r rs ih =>
    intro rid hrid
    rw [mintRun_fst] at hrid
    rcases List.mem_cons.mp hrid with rfl | hmem
    · simp only [mintRun, create_request_form_snd]
      exact mintRun_registry_mono rs _ _ (mem_addId_self _ _)
    · have := ih (addId (mintId r) st)
      rw [mintRun_fst] at this
      simpa only [mintRun, create_request_form_snd] using this rid hmem

/-! ### Claim C1 -/

/-- Claim C1, counterexample: two `create_request_form` calls whose
`random.randint` draws are both 1000000 (each a legal draw from the inclusive
range 1000000..9999999) return the same request identifier, so the returned
identifiers of a sequence of calls are not always pairwise distinct. -/
theorem mint_collision_cex :
    (mintRun [1000000, 1000000] []).1
        = ["request_id_1000000", "request_id_1000000"]
      ∧ ¬ (mintRun [1000000, 1000000] []).1.Nodup := by
  constructor
  · decide
  · decide

/-- Claim C1, amended: each identifier returned by `create_request_form` is
recorded in the registry before being returned, and the identifiers of a
sequence of calls are pairwise distinct whenever the underlying random draws
are pairwise distinct (the draws themselves, coming from `random.randint`,
may collide). -/
theorem mint_ids_nodup_of_draws_nodup (draws : List Nat) (st : List String)
    (h : draws.Nodup) :
    (mintRun draws st).1.Nodup
      ∧ (∀ rid ∈ (mintRun draws st).1, rid ∈ (mintRun draws st).2)
      ∧ (∀ (r : Nat) (d a p : Option String) (st' : List String),
          asStr (pyGet (create_request_form r d a p st').1 "request_id")
            ∈ (create_request_form r d a p st').2) := by
  refine ⟨?_, mintRun_ids_recorded draws st, ?_⟩
  · rw [mintRun_fst]
    exact h.map mintId_injective
  · intro r d a p st'
    rw [create_request_form_id, create_request_form_snd]
    exact mem_addId_self _ _

/-- Claim C1, witness: the amended theorem evaluated on the draw sequence
[1000000, 1000001] from the empty registry. -/
theorem mint_ids_nodup_witness :
    (mintRun [1000000, 1000001] []).1.Nodup
      ∧ ∀ rid ∈ (mintRun [1000000, 1000001] []).1,
          rid ∈ (mintRun [1000000, 1000001] []).2 := by
  have h := mint_ids_nodup_of_draws_nodup [1000000, 1000001] [] (by decide)
  exact ⟨h.1, h.2.1⟩

/-! ### Claims C2 and C3 -/

/-- Claim C2: for a request id present in the registry, `reimburse` returns
the dict with `request_id` the given id and `status` "approved", performs no
state transition on the registry, and a repeated call with the same id yields
the identical result. -/
theorem reimburse_known_approved (rid : String) (st : List String)
    (h : rid ∈ st) :
    (reimburse rid st).1
        = PyObj.dict [("request_id", PyObj.str rid), ("status", PyObj.str "approved")]
      ∧ (reimburse rid st).2 = st
      ∧ reimburse rid (reimburse rid st).2 = reimburse rid st := by
  unfold reimburse
  simp [h]

/-- Claim C2, witness: the theorem evaluated on a concrete known id. -/
theorem reimburse_known_approved_witness :
    (reimburse "request_id_1234567" ["request_id_1234567"]).1
        = PyObj.dict [("request_id", PyObj.str "request_id_1234567"),
                      ("status", PyObj.str "approved")]
      ∧ (reimburse "request_id_1234567" ["request_id_1234567"]).2
        = ["request_id_1234567"] := by
  have h := reimburse_known_approved "request_id_1234567" ["request_id_1234567"]
    (by decide)
  exact ⟨h.1, h.2.1⟩

/-- Claim C3: for a request id absent from the registry, `reimburse` returns
— as an ordinary value, the embedding of this function being total and
exception-free — the dict with `status` "Error: Invalid request_id.", a string
beginning with "Error", whatever the prior registry state; the registry is
unchanged. -/
theorem reimburse_unknown_error (rid : String) (st : List String)
    (h : rid ∉ st) :
    reimburse rid st
        = (PyObj.dict [("request_id", PyObj.str rid),
                       ("status", PyObj.str "Error: Invalid request_id.")], st)
      ∧ ∃ rest : String,
          asStr (pyGet (reimburse rid st).1 "status") = "Error" ++ rest := by
  have h1 : reimburse rid st
      = (PyObj.dict [("request_id", PyObj.str rid),
                     ("status", PyObj.str "Error: Invalid request_id.")], st) := by
    unfold reimburse
    simp [h]
  refine ⟨h1, ": Invalid request_id.", ?_⟩
  rw [h1]
  rfl

/-- Claim C3, witness: the theorem evaluated on an id the registry does not
hold. -/
theorem reimburse_unknown_error_witness :
    reimburse "nonexistent" ["request_id_1234567"]
        = (PyObj.dict [("request_id", PyObj.str "nonexistent"),
                       ("status", PyObj.str "Error: Invalid request_id.")],
           ["request_id_1234567"])
      ∧ ∃ rest : String,
          asStr (pyGet (reimburse "nonexistent" ["request_id_1234567"]).1 "status")
            = "Error" ++ rest :=
  reimburse_unknown_error "nonexistent" ["request_id_1234567"] (by decide)

/-! ### Claim C4 -/

/-- Claim C4: `return_form` on a snapshot dict returns the serialized
descriptor whose `required` list is exactly the key list of that snapshot
(`list(form_request.keys())`), with no hardcoded field list: a snapshot with
keys date and amount yields exactly those, adding purpose yields all three. -/
theorem return_form_required_eq_keys (entries : List (String × PyObj))
    (ctx : ToolContext) (instr : Option String) :
    (return_form (PyObj.dict entries) ctx instr).1
        = Except.ok (PyObj.str (jsonDumps (form_dict entries instr)))
      ∧ getRequired (form_dict entries instr) = Option.some (entries.map Prod.fst) := by
  constructor
  · rfl
  · simp [getRequired, form_dict, pyGet, lookupEntry, List.map_map, Function.comp]

/-! ### Claim C5 -/

/-- Claim C5: `create_request_form` replaces each missing (`None`) or empty
field among date, amount and purpose by its non-empty human-readable
placeholder, and keeps any non-empty caller-supplied value unchanged. -/
theorem create_request_form_placeholder_substitution (r : Nat)
    (d a p : Option String) (st : List String) :
    (strTruthy d = false →
        pyGet (create_request_form r d a p st).1 "date"
            = Option.some (PyObj.str "<transaction date>")
          ∧ "<transaction date>" ≠ "")
      ∧ (∀ s, d = Option.some s → s ≠ "" →
          pyGet (create_request_form r d a p st).1 "date" = Option.some (PyObj.str s))
      ∧ (strTruthy a = false →
          pyGet (create_request_form r d a p st).1 "amount"
              = Option.some (PyObj.str "<transaction dollar amount>")
            ∧ "<transaction dollar amount>" ≠ "")
      ∧ (∀ s, a = Option.some s → s ≠ "" →
          pyGet (create_request_form r d a p st).1 "amount" = Option.some (PyObj.str s))
      ∧ (strTruthy p = false →
          pyGet (create_request_form r d a p st).1 "purpose"
              = Option.some (PyObj.str
                  "<business justification/purpose of the transaction>")
            ∧ "<business justification/purpose of the transaction>" ≠ "")
      ∧ (∀ s, p = Option.some s → s ≠ "" →
          pyGet (create_request_form r d a p st).1 "purpose"
            = Option.some (PyObj.str s)) := by
  refine ⟨fun h => ⟨?_, by decide⟩, ?_, fun h => ⟨?_, by decide⟩, ?_,
      fun h => ⟨?_, by decide⟩, ?_⟩
  · simp [create_request_form, pyGet, lookupEntry, h]
  · intro s hs hne
    subst hs
    simp [create_request_form, pyGet, lookupEntry, strTruthy, hne]
  · simp [create_request_form, pyGet, lookupEntry, h]
  · intro s hs hne
    subst hs
    simp [create_request_form, pyGet, lookupEntry, strTruthy, hne]
  · simp [create_request_form, pyGet, lookupEntry, h]
  · intro s hs hne
    subst hs
    simp [create_request_form, pyGet, lookupEntry, strTruthy, hne]

/-- Claim C5, witness: the theorem evaluated on the snapshot
(date = "", amount = "100", purpose = None). -/
theorem create_request_form_placeholder_witness :
    pyGet (create_request_form 1234567 (Option.some "") (Option.some "100")
        Option.none []).1 "date" = Option.some (PyObj.str "<transaction date>")
      ∧ pyGet (create_request_form 1234567 (Option.some "") (Option.some "100")
          Option.none []).1 "purpose"
        = Option.some (PyObj.str "<business justification/purpose of the transaction>")
      ∧ pyGet (create_request_form 1234567 (Option.some "") (Option.some "100")
          Option.none []).1 "amount" = Option.some (PyObj.str "100")
      ∧ "<transaction date>" ≠ ""
      ∧ "<business justification/purpose of the transaction>" ≠ "" := by
  have h := create_request_form_placeholder_substitution 1234567 (Option.some "")
    (Option.some "100") Option.none []
  exact ⟨(h.1 rfl).1, (h.2.2.2.2.1 rfl).1, h.2.2.2.1 "100" rfl (by decide),
    (h.1 rfl).2, (h.2.2.2.2.1 rfl).2⟩

/-! ### Claim C6 -/

/-- Claim C6, counterexample: on the malformed serialized snapshot "not json"
the deserialization failure of `return_form` propagates as the raised
`json.JSONDecodeError` (the `Except.error` outcome of the embedding), not as
an ordinary structured result value, and the context is left untouched. -/
theorem return_form_json_error_raised_cex :
    return_form (PyObj.str "not json")
        ⟨⟨false, false, Option.none⟩, []⟩ Option.none
      = (Except.error PyError.jsonDecodeError,
         ⟨⟨false, false, Option.none⟩, []⟩) := rfl

/-- Claim C6, amended: a string snapshot is deserialized before any field
access or other effect — on parse failure the call raises
`json.JSONDecodeError` with the context unmodified (the failure is not
silently ignored, but neither is it returned as a structured error result),
and on parse success the call proceeds exactly as on the parsed object. -/
theorem return_form_deserializes_before_access (s : String) (ctx : ToolContext)
    (instr : Option String) :
    (jsonLoads s = Except.error () →
        return_form (PyObj.str s) ctx instr
          = (Except.error PyError.jsonDecodeError, ctx))
      ∧ ∀ v, jsonLoads s = Except.ok v →
          return_form (PyObj.str s) ctx instr = return_form_body v ctx instr := by
  constructor
  · intro h
    simp [return_form, h]
  · intro v h
    simp [return_form, h]

/-- Claim C6, witness: the amended theorem evaluated on a malformed and on a
well-formed serialized snapshot. -/
theorem return_form_deserializes_witness :
    return_form (PyObj.str "not json") ⟨⟨false, false, Option.none⟩, []⟩
        Option.none
      = (Except.error PyError.jsonDecodeError,
         ⟨⟨false, false, Option.none⟩, []⟩)
      ∧ return_form (PyObj.str "\x7b\"date\": \"1\"\x7d")
          ⟨⟨false, false, Option.none⟩, []⟩ Option.none
        = return_form_body (PyObj.dict [("date", PyObj.str "1")])
            ⟨⟨false, false, Option.none⟩, []⟩ Option.none := by
  have h1 := return_form_deserializes_before_access "not json"
    ⟨⟨false, false, Option.none⟩, []⟩ Option.none
  have h2 := return_form_deserializes_before_access "\x7b\"date\": \"1\"\x7d"
    ⟨⟨false, false, Option.none⟩, []⟩ Option.none
  exact ⟨h1.1 rfl, h2.2 (PyObj.dict [("date", PyObj.str "1")]) (by rfl)⟩

/-! ### Claim C7 -/

lemma return_form_body_snd (fr : PyObj) (ctx : ToolContext)
    (instr : Option String) :
    (return_form_body fr ctx instr).2 = setEscalation ctx := by
  cases fr <;> rfl

lemma return_form_body_fst_ne_jsonError (fr : PyObj) (ctx : ToolContext)
    (instr : Option String) :
    (return_form_body fr ctx instr).1 ≠ Except.error PyError.jsonDecodeError := by
  cases fr <;> simp [return_form_body]

/-- Claim C7, counterexample: on a serialized-string snapshot that fails to
deserialize, `json.loads` raises before the flag writes of lines 64-65, so
invoking `return_form` leaves both `skip_summarization` and `escalate` false —
the original unconditional claim fails at this input. -/
theorem return_form_flags_unset_cex :
    (return_form (PyObj.str "oops") ⟨⟨false, false, Option.none⟩, []⟩
        Option.none).2.actions.skip_summarization = false
      ∧ (return_form (PyObj.str "oops") ⟨⟨false, false, Option.none⟩, []⟩
          Option.none).2.actions.escalate = false :=
  ⟨rfl, rfl⟩

/-- Claim C7, amended: for every input, invoking `return_form` against a
caller-supplied context sets both `skip_summarization` and `escalate` to true
and mutates no other field of the context — the remaining action field and the
context state come back unchanged — except when the call raises
`json.JSONDecodeError` on a malformed serialized snapshot, in which case the
failure precedes the flag writes and the context comes back completely
unchanged. -/
theorem return_form_escalation_or_untouched (fr : PyObj) (ctx : ToolContext)
    (instr : Option String) :
    ((return_form fr ctx instr).1 ≠ Except.error PyError.jsonDecodeError →
        (return_form fr ctx instr).2.actions.skip_summarization = true
          ∧ (return_form fr ctx instr).2.actions.escalate = true
          ∧ (return_form fr ctx instr).2.actions.transfer_to_agent
            = ctx.actions.transfer_to_agent
          ∧ (return_form fr ctx instr).2.state = ctx.state)
      ∧ ((return_form fr ctx instr).1 = Except.error PyError.jsonDecodeError →
          (return_form fr ctx instr).2 = ctx) := by
  constructor
  · intro h
    have h2 : (return_form fr ctx instr).2 = setEscalation ctx := by
      cases fr with
      | str s =>
        cases hjl : jsonLoads s with
        | error e =>
          exfalso
          apply h
          simp [return_form, hjl]
        | ok v =>
          rw [show return_form (PyObj.str s) ctx instr
              = return_form_body v ctx instr from by simp [return_form, hjl]]
          exact return_form_body_snd v ctx instr
      | dict entries => exact return_form_body_snd _ ctx instr
      | none => exact return_form_body_snd _ ctx instr
      | bool b => exact return_form_body_snd _ ctx instr
      | int n => exact return_form_body_snd _ ctx instr
      | list xs => exact return_form_body_snd _ ctx instr
    rw [h2]
    exact ⟨rfl, rfl, rfl, rfl⟩
  · intro h
    cases fr with
    | str s =>
      cases hjl : jsonLoads s with
      | error e => simp [return_form, hjl]
      | ok v =>
        exfalso
        apply return_form_body_fst_ne_jsonError v ctx instr
        rw [← h]
        simp [return_form, hjl]
    | dict entries => exact absurd h (return_form_body_fst_ne_jsonError _ ctx instr)
    | none => exact absurd h (return_form_body_fst_ne_jsonError _ ctx instr)
    | bool b => exact absurd h (return_form_body_fst_ne_jsonError _ ctx instr)
    | int n => exact absurd h (return_form_body_fst_ne_jsonError _ ctx instr)
    | list xs => exact absurd h (return_form_body_fst_ne_jsonError _ ctx instr)

/-- Claim C7, witness: the amended theorem evaluated on a snapshot dict
against a context carrying a pending transfer and nonempty state (both flags
set, nothing else mutated), and on a malformed serialized snapshot (context
completely unchanged). -/
theorem return_form_escalation_witness :
    ((return_form (PyObj.dict [("date", PyObj.str "1")])
          ⟨⟨false, false, Option.some "peer"⟩, [("turn", PyObj.int 3)]⟩
          Option.none).2.actions.skip_summarization = true
        ∧ (return_form (PyObj.dict [("date", PyObj.str "1")])
            ⟨⟨false, false, Option.some "peer"⟩, [("turn", PyObj.int 3)]⟩
            Option.none).2.actions.escalate = true
        ∧ (return_form (PyObj.dict [("date", PyObj.str "1")])
            ⟨⟨false, false, Option.some "peer"⟩, [("turn", PyObj.int 3)]⟩
            Option.none).2.actions.transfer_to_agent = Option.some "peer"
        ∧ (return_form (PyObj.dict [("date", PyObj.str "1")])
            ⟨⟨false, false, Option.some "peer"⟩, [("turn", PyObj.int 3)]⟩
            Option.none).2.state = [("turn", PyObj.int 3)])
      ∧ (return_form (PyObj.str "oops") ⟨⟨false, false, Option.none⟩, []⟩
          Option.none).2 = ⟨⟨false, false, Option.none⟩, []⟩ := by
  have h1 := return_form_escalation_or_untouched
    (PyObj.dict [("date", PyObj.str "1")])
    ⟨⟨false, false, Option.some "peer"⟩, [("turn", PyObj.int 3)]⟩ Option.none
  have h2 := return_form_escalation_or_untouched (PyObj.str "oops")
    ⟨⟨false, false, Option.none⟩, []⟩ Option.none
  exact ⟨h1.1 (by simp [return_form, return_form_body]), h2.2 (by rfl)⟩

/-! ### Claim C8 -/

lemma return_form_body_ok_str (fr : PyObj) (ctx : ToolContext)
    (instr : Option String) (v : PyObj)
    (h : (return_form_body fr ctx instr).1 = Except.ok v) :
    ∃ s, v = PyObj.str s := by
  cases fr with
  | dict entries =>
    refine ⟨jsonDumps (form_dict entries instr), ?_⟩
    have he : (return_form_body (PyObj.dict entries) ctx instr).1
        = Except.ok (PyObj.str (jsonDumps (form_dict entries instr))) := rfl
    rw [he] at h
    exact (Except.ok.inj h).symm
  | none => exact absurd h (by simp [return_form_body])
  | bool b => exact absurd h (by simp [return_form_body])
  | int n => exact absurd h (by simp [return_form_body])
  | str s => exact absurd h (by simp [return_form_body])
  | list xs => exact absurd h (by simp [return_form_body])

/-- Claim C8: whatever `return_form` returns without raising is the form
descriptor serialized as a JSON string (`json.dumps(form_dict)`), never a
structured object: on a snapshot dict the result is exactly the serialized
descriptor, and every non-raising outcome is a string value. -/
theorem return_form_returns_json_string (fr : PyObj) (ctx : ToolContext)
    (instr : Option String) :
    (∀ entries, fr = PyObj.dict entries →
        (return_form fr ctx instr).1
          = Except.ok (PyObj.str (jsonDumps (form_dict entries instr))))
      ∧ ∀ v, (return_form fr ctx instr).1 = Except.ok v →
          ∃ s, v = PyObj.str s := by
  constructor
  · intro entries he
    subst he
    rfl
  · intro v hv
    cases fr with
    | str s =>
      cases hjl : jsonLoads s with
      | error e =>
        rw [show return_form (PyObj.str s) ctx instr
            = (Except.error PyError.jsonDecodeError, ctx) from by
          simp [return_form, hjl]] at hv
        cases hv
      | ok parsed =>
        apply return_form_body_ok_str parsed ctx instr v
        rw [← hv]
        simp [return_form, hjl]
    | dict entries => exact return_form_body_ok_str _ ctx instr v hv
    | none => exact return_form_body_ok_str _ ctx instr v hv
    | bool b => exact return_form_body_ok_str _ ctx instr v hv
    | int n => exact return_form_body_ok_str _ ctx instr v hv
    | list xs => exact return_form_body_ok_str _ ctx instr v hv

/-- Claim C8, witness: the theorem evaluated on a concrete snapshot dict. -/
theorem return_form_returns_json_string_witness :
    (return_form (PyObj.dict [("date", PyObj.str "1")])
        ⟨⟨false, false, Option.none⟩, []⟩ Option.none).1
      = Except.ok (PyObj.str
          (jsonDumps (form_dict [("date", PyObj.str "1")] Option.none))) :=
  (return_form_returns_json_string (PyObj.dict [("date", PyObj.str "1")])
      ⟨⟨false, false, Option.none⟩, []⟩ Option.none).1
    [("date", PyObj.str "1")] rfl

/-! ### Claim C9 -/

/-- Claim C9: for a draw in the inclusive range of
`random.randint(1000000, 9999999)`, the returned request id is the string
`request_id_` followed by the decimal representation of the draw, so every id
ever issued lies in the image of that range under `mintId` — a set of at most
9000000 identifiers. -/
theorem request_id_shape_and_bound (r : Nat) (d a p : Option String)
    (st : List String) (h1 : 1000000 ≤ r) (h2 : r ≤ 9999999) :
    pyGet (create_request_form r d a p st).1 "request_id"
        = Option.some (PyObj.str ("request_id_" ++ Nat.repr r))
      ∧ mintId r ∈ (Finset.Icc 1000000 9999999).image mintId
      ∧ ((Finset.Icc 1000000 9999999).image mintId).card ≤ 9000000 := by
  refine ⟨create_request_form_id r d a p st, ?_, ?_⟩
  · exact Finset.mem_image_of_mem mintId (Finset.mem_Icc.mpr ⟨h1, h2⟩)
  · calc ((Finset.Icc 1000000 9999999).image mintId).card
        ≤ (Finset.Icc 1000000 9999999).card := Finset.card_image_le
      _ = 9000000 := by rw [Nat.card_Icc]

/-- Claim C9, witness: the theorem evaluated at the draw 1234567. -/
theorem request_id_shape_witness :
    pyGet (create_request_form 1234567 Option.none Option.none Option.none []).1
        "request_id"
        = Option.some (PyObj.str ("request_id_" ++ Nat.repr 1234567))
      ∧ mintId 1234567 ∈ (Finset.Icc 1000000 9999999).image mintId := by
  have h := request_id_shape_and_bound 1234567 Option.none Option.none
    Option.none [] (by norm_num) (by norm_num)
  exact ⟨h.1, h.2.1⟩

/-! ### Claim C10 -/

/-- Claim C10: the `'form'` schema portion of the descriptor built by
`return_form` is the fixed constant `form_properties` — the four fields date,
amount, purpose and request_id with their types, formats, titles and
descriptions — independent of the snapshot and the instructions; the
`required` list, `form_data` and `instructions` entries are exactly the
input-dependent parts. -/
theorem form_schema_constant (e1 e2 : List (String × PyObj))
    (i1 i2 : Option String) :
    getProperties (form_dict e1 i1) = Option.some form_properties
      ∧ getProperties (form_dict e1 i1) = getProperties (form_dict e2 i2)
      ∧ pyGet (form_dict e1 i1) "type" = Option.some (PyObj.str "form")
      ∧ (pyGet (form_dict e1 i1) "form").bind (fun f => pyGet f "type")
        = Option.some (PyObj.str "object")
      ∧ pyGet (form_dict e1 i1) "form_data" = Option.some (PyObj.dict e1)
      ∧ pyGet (form_dict e1 i1) "instructions"
        = Option.some ((i1.map PyObj.str).getD PyObj.none) :=
  ⟨rfl, rfl, rfl, rfl, rfl, rfl⟩

end AdkA2A
